import Mathlib

/-!
Verification of the UFO² configuration-diagnostics scripts.

This file gives a shallow embedding of the configuration validation,
env-var resolution, heuristic scanning, error classification and
reporting logic found in `comprehensive_validation.py`,
`fixed_comprehensive_validation.py`, `test_api_connectivity.py`,
`comprehensive_test.py`, `test_mission.py`,
`darbot/darbot_validation.py` and `darbot/fix_azure_config.py`,
together with theorems settling the specification claims about them.

Agent configurations are modelled as association lists of string keys to
string values (the Python code accesses `host_agent` as a dict of strings);
the parsed YAML document is modelled by a small `Yaml` inductive.
-/

namespace UFO

/-- Boolean test that the list `p` is an initial segment of `s`
(character-list version of Python substring search support). -/
def charsHaveInit (p s : List Char) : Bool :=
  match p, s with
  | [], _ => true
  | _ :: _, [] => false
  | a :: ps, b :: ss => a == b && charsHaveInit ps ss

/-- Boolean test that `p` occurs contiguously somewhere in `s`. -/
def charsHaveSub (p s : List Char) : Bool :=
  match s with
  | [] => p.isEmpty
  | _ :: ss => charsHaveInit p s || charsHaveSub p ss

/-- Python's `needle in hay` substring test on strings. -/
def strContains (hay needle : String) : Bool :=
  charsHaveSub needle.data hay.data

/-- Python's `s.startswith(p)`. -/
def strStarts (s p : String) : Bool :=
  charsHaveInit p.data s.data

/-- Python's `s.endswith(p)`. -/
def strEnds (s p : String) : Bool :=
  charsHaveInit p.data.reverse s.data.reverse

/-- ASCII lowering of one character; agrees with Python `str.lower` on the
ASCII strings handled by these scripts. -/
def charLower (c : Char) : Char :=
  if 'A' ≤ c && c ≤ 'Z' then Char.ofNat (c.toNat + 32) else c

/-- Python's `s.lower()` (ASCII range). -/
def strLower (s : String) : String :=
  ⟨s.data.map charLower⟩

/-- Python's `s[2:-1]`: drop the first two and the last character. -/
def stripBraceForm (s : String) : String :=
  ⟨(s.data.drop 2).take ((s.data.drop 2).length - 1)⟩

/-!
## comprehensive_validation.py, `validate_config`

Findings are one constructor per print site of the per-agent portion of
`validate_config` (lines 250-313 of the source).
-/

/-- Findings emitted by `validate_config` in `comprehensive_validation.py`;
one constructor per print site of the decision logic. -/
inductive Finding where
  /-- print_error f"Missing {field} in HOST_AGENT configuration" (FAIL path). -/
  | missingField (field : String)
  /-- print_success f"{field} is configured". -/
  | fieldConfigured (field : String)
  /-- print_warning: API_DEPLOYMENT_ID looks like a model name. -/
  | deploymentLooksLikeModel (dep : String)
  /-- print_error: API_BASE contains placeholder text. -/
  | apiBasePlaceholder (base : String)
  /-- print_error: API_KEY appears to be a placeholder or invalid. -/
  | apiKeyPlaceholderOrInvalid
  /-- print_success f"{key} uses environment variables". -/
  | usesEnvVars (key : String)
  /-- print_warning: no environment variables detected in configuration. -/
  | noEnvVarsDetected
  /-- print_success: MODELS section found. -/
  | modelsFound
  /-- print_warning: no MODELS section found. -/
  | modelsMissing
deriving DecidableEq, Repr

/-- Fixed list of known model names tested against `API_DEPLOYMENT_ID`
(`comprehensive_validation.py` line 277, also `darbot_validation.py` line 180). -/
def knownModelNames : List String :=
  ["gpt-4", "gpt-4o", "gpt-35-turbo", "gpt-3.5-turbo"]

/-- Environment-variable detection loop of `validate_config` (lines 293-297):
one success finding per field whose value contains `${` or `%`. -/
def envVarFindings (hostAgent : List (String × String)) : List Finding :=
  (hostAgent.filter fun kv => strContains kv.2 "$\x7b" || strContains kv.2 "%").map
    fun kv => Finding.usesEnvVars kv.1

/-- Trailing findings of `validate_config` (lines 291-309): the env-var scan,
the no-env-vars warning, and the MODELS-section check (`hasModels` mirrors
`"MODELS" in config`). -/
def tailFindings (hostAgent : List (String × String)) (hasModels : Bool) :
    List Finding :=
  let envFs := envVarFindings hostAgent
  envFs ++ (if envFs.isEmpty then [Finding.noEnvVarsDetected] else []) ++
    (if hasModels then [Finding.modelsFound] else [Finding.modelsMissing])

/-- Per-agent portion of `validate_config` (`comprehensive_validation.py`
lines 250-314), on the `HOST_AGENT` mapping.  Returns the findings in print
order together with the boolean the function returns.  Required fields
`API_TYPE`, `API_KEY` are checked for key presence; when the lower-cased
`API_TYPE` equals `"azure"` the fields `API_BASE`, `API_VERSION`,
`API_DEPLOYMENT_ID` are additionally required and the three Azure heuristics
run; the azure heuristic errors do not change the returned boolean. -/
def validateConfigAgent (hostAgent : List (String × String)) (hasModels : Bool) :
    List Finding × Bool :=
  match hostAgent.lookup "API_TYPE" with
  | none => ([Finding.missingField "API_TYPE"], false)
  | some api_type =>
    match hostAgent.lookup "API_KEY" with
    | none => ([Finding.fieldConfigured "API_TYPE", Finding.missingField "API_KEY"], false)
    | some api_key =>
      let req := [Finding.fieldConfigured "API_TYPE", Finding.fieldConfigured "API_KEY"]
      if strLower api_type = "azure" then
        match hostAgent.lookup "API_BASE" with
        | none => (req ++ [Finding.missingField "API_BASE"], false)
        | some api_base =>
          match hostAgent.lookup "API_VERSION" with
          | none => (req ++ [Finding.fieldConfigured "API_BASE",
                      Finding.missingField "API_VERSION"], false)
          | some _ =>
            match hostAgent.lookup "API_DEPLOYMENT_ID" with
            | none => (req ++ [Finding.fieldConfigured "API_BASE",
                        Finding.fieldConfigured "API_VERSION",
                        Finding.missingField "API_DEPLOYMENT_ID"], false)
            | some api_deployment =>
              let azureFs :=
                (if knownModelNames.contains api_deployment then
                  [Finding.deploymentLooksLikeModel api_deployment] else []) ++
                (if strContains (strLower api_base) "your-resource" ||
                    strContains (strLower api_base) "your" then
                  [Finding.apiBasePlaceholder api_base] else []) ++
                (if api_key = "YOUR_API_KEY" || api_key.length < 10 then
                  [Finding.apiKeyPlaceholderOrInvalid] else [])
              (req ++ [Finding.fieldConfigured "API_BASE",
                Finding.fieldConfigured "API_VERSION",
                Finding.fieldConfigured "API_DEPLOYMENT_ID"] ++ azureFs ++
                tailFindings hostAgent hasModels, true)
      else
        (req ++ tailFindings hostAgent hasModels, true)

/-!
## fixed_comprehensive_validation.py, `check_config_file`
-/

/-- Findings emitted by the per-agent portion of `check_config_file` in
`fixed_comprehensive_validation.py` (lines 216-253); one constructor per
print site. -/
inductive CheckFinding where
  /-- print_error listing the missing required fields (FAIL path). -/
  | missingFields (fields : List String)
  /-- print_info f"API Type: {api_type}". -/
  | apiTypeInfo (apiType : String)
  /-- print_info "Using Azure OpenAI". -/
  | usingAzure
  /-- print_error "API_DEPLOYMENT_ID is required for Azure OpenAI" (FAIL path). -/
  | missingDeployment
  /-- print_warning: API_DEPLOYMENT_ID looks like a model name. -/
  | deploymentLooksLikeModel (dep : String)
  /-- print_info: using environment variables for API keys (recommended). -/
  | envVarsUsed
  /-- print_warning: consider using environment variables for API keys. -/
  | considerEnvVars
  /-- print_success "Config file has required structure". -/
  | structureOk
deriving DecidableEq, Repr

/-- Per-agent portion of `check_config_file`
(`fixed_comprehensive_validation.py` lines 216-253).  `API_TYPE`, `API_BASE`
and `API_KEY` are unconditionally required (collected into one missing-fields
error); when the lower-cased `API_TYPE` is `azure` or `aoai`, only
`API_DEPLOYMENT_ID` is additionally required, the deployment warning fires on
the prefix `gpt-`, and the env-var hint inspects `API_KEY`. -/
def checkConfigFileAgent (hostAgent : List (String × String)) :
    List CheckFinding × Bool :=
  let missing :=
    (["API_TYPE", "API_BASE", "API_KEY"].filter fun f => (hostAgent.lookup f).isNone)
  if !missing.isEmpty then ([CheckFinding.missingFields missing], false)
  else
    let api_type := strLower ((hostAgent.lookup "API_TYPE").getD "")
    if api_type = "azure" || api_type = "aoai" then
      match hostAgent.lookup "API_DEPLOYMENT_ID" with
      | none => ([CheckFinding.apiTypeInfo api_type, CheckFinding.usingAzure,
                  CheckFinding.missingDeployment], false)
      | some deployment_id =>
        let depW := if strStarts deployment_id "gpt-" then
          [CheckFinding.deploymentLooksLikeModel deployment_id] else []
        let api_key := (hostAgent.lookup "API_KEY").getD ""
        let envF := if strStarts api_key "$\x7b" || strStarts api_key "%" then
          [CheckFinding.envVarsUsed] else [CheckFinding.considerEnvVars]
        ([CheckFinding.apiTypeInfo api_type, CheckFinding.usingAzure] ++ depW ++ envF ++
          [CheckFinding.structureOk], true)
    else
      ([CheckFinding.apiTypeInfo api_type, CheckFinding.structureOk], true)

/-!
## Parsed YAML documents, section resolution and loading
-/

/-- Parsed YAML document, as produced by `yaml.safe_load`:
scalars and string-keyed mappings (the shapes these scripts handle). -/
inductive Yaml where
  /-- YAML `null` (PyYAML returns Python `None`, also for an empty document). -/
  | null
  /-- Boolean scalar. -/
  | bool (b : Bool)
  /-- String scalar. -/
  | str (s : String)
  /-- Mapping with string keys, in document order. -/
  | map (es : List (String × Yaml))

/-- Key access on a parsed document: the value under `k` if the document is a
mapping containing `k`, mirroring Python `k in d` / `d[k]` on dicts. -/
def Yaml.find : Yaml → String → Option Yaml
  | .map es, k => es.lookup k
  | _, _ => none

/-- Python truthiness of a parsed YAML value (`if not config:`):
`None`, empty strings and empty mappings are falsy. -/
def pyTruthy : Yaml → Bool
  | .null => false
  | .bool b => b
  | .str s => !s.isEmpty
  | .map es => !es.isEmpty

/-- Agent-section resolution used by `check_config_file` (lines 204-214) and
`check_api_connectivity` (lines 300-308) of
`fixed_comprehensive_validation.py`: the key at top level first, then nested
under `AGENT_SETTINGS`; the first hit is returned. -/
def resolveAgentSection (config : Yaml) (name : String) : Option Yaml :=
  match config.find name with
  | some v => some v
  | none =>
    match config.find "AGENT_SETTINGS" with
    | some s => s.find name
    | none => none

/-- Host-agent access of `test_azure_openai_direct`
(`test_api_connectivity.py` line 31):
`config.get("AGENT_SETTINGS", {}).get("HOST_AGENT", {})` — only the nested
path is consulted, and a missing path yields an empty mapping. -/
def nestedOnlyHostAgent (config : Yaml) : Yaml :=
  match config.find "AGENT_SETTINGS" with
  | some s =>
    match s.find "HOST_AGENT" with
    | some h => h
    | none => Yaml.map []
  | none => Yaml.map []

/-- Outcome of locating and parsing the configuration file. -/
inductive LoadOutcome where
  /-- The path does not exist (`config_path.exists()` is false). -/
  | configNotFound
  /-- The parsed document is falsy (`if not config:`), reported with the
  message of the corresponding print_error call. -/
  | configParseError (msg : String)
  /-- Truthy document returned to the caller. -/
  | loaded (doc : Yaml)

/-- Loader logic shared by `check_config_file`
(`fixed_comprehensive_validation.py` lines 189-202) and `check_config`
(`darbot_validation.py` lines 141-152): the input is `none` when the path
does not exist, otherwise the result of `yaml.safe_load` on the file content
(PyYAML parses both an empty file and the content `null` to `None`,
i.e. `Yaml.null`). -/
def loadConfigFile (file : Option Yaml) : LoadOutcome :=
  match file with
  | none => LoadOutcome.configNotFound
  | some doc =>
    if pyTruthy doc then LoadOutcome.loaded doc
    else LoadOutcome.configParseError "Config file is empty or invalid"

/-!
## test_api_connectivity.py, error classification
-/

/-- Diagnostic categories of the error guidance in `test_azure_openai_direct`
(`test_api_connectivity.py` lines 73-103); `unclassified` is the fall-through
that shows only the raw error. -/
inductive ErrorCategory where
  /-- Troubleshooting for the `unavailable_model` error. -/
  | deploymentMismatch
  /-- Troubleshooting for the authentication error. -/
  | authFailure
  /-- Troubleshooting for the endpoint error. -/
  | endpointMisconfig
  /-- No guidance branch matched. -/
  | unclassified
deriving DecidableEq, Repr

/-- Error classification of `test_azure_openai_direct`
(`test_api_connectivity.py` lines 78-101): branches tried in order; the first
branch tests `"unavailable_model" in error_msg` on the raw text, the second
and third lower-case the text first. -/
def classifyError (error_msg : String) : ErrorCategory :=
  if strContains error_msg "unavailable_model" then ErrorCategory.deploymentMismatch
  else if strContains (strLower error_msg) "authentication failed" ||
      strContains (strLower error_msg) "unauthorized" then ErrorCategory.authFailure
  else if strContains (strLower error_msg) "location" ||
      strContains (strLower error_msg) "endpoint" then ErrorCategory.endpointMisconfig
  else ErrorCategory.unclassified

/-!
## darbot/fix_azure_config.py, issue detection and the save flow
-/

/-- Known model names as listed in `fix_azure_config.py` line 104. -/
def commonModelNames : List String :=
  ["gpt-4o", "gpt-4", "gpt-35-turbo", "gpt-3.5-turbo"]

/-- Issue findings of `fix_azure_openai_config`
(`fix_azure_config.py` lines 92-108), in print order: placeholder endpoint,
placeholder key, and deployment ID matching a known model name.  Reuses the
`Finding` constructors for the shared messages. -/
def fixAzureFindings (api_base api_key api_deployment : String) : List Finding :=
  (if api_base = "" || strContains (strLower api_base) "your" then
    [Finding.apiBasePlaceholder api_base] else []) ++
  (if api_key = "" || strContains (strLower api_key) "your" then
    [Finding.apiKeyPlaceholderOrInvalid] else []) ++
  (if commonModelNames.contains api_deployment then
    [Finding.deploymentLooksLikeModel api_deployment] else [])

/-- Contents of the two files the fix flow may touch. -/
structure ConfigFS where
  /-- Content of `ufo/config/config.yaml`. -/
  configContent : String
  /-- Content of the `.backup` sibling, `none` while it does not exist. -/
  backupContent : Option String
deriving DecidableEq, Repr

/-- One file write performed by the save flow. -/
inductive WriteEvent where
  /-- Write of the full original content to the `.backup` path. -/
  | backupWrite (content : String)
  /-- Overwrite of `config.yaml` with the updated dump. -/
  | configWrite (content : String)
deriving DecidableEq, Repr

/-- Save step of `fix_azure_openai_config` (`fix_azure_config.py` lines
153-175): when changes were made, the original content is first written in
full to the `.backup` path, and only then is the config file overwritten with
the updated dump (`updated`); when no changes were made, nothing is written.
Returns the final file contents and the writes in execution order. -/
def saveUpdatedConfig (changesMade : Bool) (updated : String) (fs : ConfigFS) :
    ConfigFS × List WriteEvent :=
  if changesMade then
    let afterBackup : ConfigFS := ⟨fs.configContent, some fs.configContent⟩
    (⟨updated, afterBackup.backupContent⟩,
      [WriteEvent.backupWrite fs.configContent, WriteEvent.configWrite updated])
  else (fs, [])

/-!
## Environment-variable resolution
-/

/-- Env-var resolution step used by `check_api_connectivity`
(`fixed_comprehensive_validation.py` lines 325-344): a value that starts
with `${` and ends with `}` is replaced by the environment value of the name
between the braces (empty string when unset, which the caller then reports
as a missing variable); any other value is passed through unchanged. -/
def resolveEnvVar (env : List (String × String)) (s : String) : String :=
  if strStarts s "$\x7b" && strEnds s "\x7d" then
    (env.lookup (stripBraceForm s)).getD ""
  else s

/-!
## Reporters: comprehensive_test.py and test_mission.py
-/

/-- Overall verdict tiers printed by `comprehensive_test.py` `main`
(lines 242-250). -/
inductive Verdict where
  /-- "UFO² setup is ready for operation!". -/
  | ready
  /-- "UFO² setup has minor issues but may be functional". -/
  | usableWithIssues
  /-- "UFO² setup has significant issues requiring attention". -/
  | notReady
deriving DecidableEq, Repr

/-- Success percentage `(passed / total) * 100` of `comprehensive_test.py`
`main` (line 233), modelled in exact rational arithmetic. -/
def successRate (passed total : ℕ) : ℚ :=
  (passed : ℚ) / (total : ℚ) * 100

/-- Verdict mapping of `comprehensive_test.py` `main` (lines 242-250):
at least 80 percent is ready, at least 60 percent is usable with issues,
anything lower is not ready. -/
def comprehensiveTestVerdict (passed total : ℕ) : Verdict :=
  if successRate passed total ≥ 80 then Verdict.ready
  else if successRate passed total ≥ 60 then Verdict.usableWithIssues
  else Verdict.notReady

/-- Boolean result of `comprehensive_test.py` `main` (lines 242-250):
True on the first two tiers, False on the third. -/
def comprehensiveTestSuccess (passed total : ℕ) : Bool :=
  if successRate passed total ≥ 80 then true
  else if successRate passed total ≥ 60 then true
  else false

/-- Process exit status of `comprehensive_test.py` (line 255,
`sys.exit(0 if success else 1)`). -/
def comprehensiveTestExit (passed total : ℕ) : ℕ :=
  if comprehensiveTestSuccess passed total then 0 else 1

/-- Process exit status of `test_mission.py` `main` (lines 150-159):
0 when all tests passed or when `passed >= total * 0.8`, else 1
(0.8 modelled as the exact rational 4/5). -/
def testMissionExit (passed total : ℕ) : ℕ :=
  if passed = total then 0
  else if (passed : ℚ) ≥ (total : ℚ) * (4 / 5) then 0
  else 1

/-!
## Connectivity-probe parameter extraction (API_VERSION defaults)
-/

/-- Parameters with which an Azure connectivity probe is issued. -/
structure AzureProbeParams where
  /-- Endpoint URL passed as `azure_endpoint`. -/
  apiBase : String
  /-- Key passed as `api_key`. -/
  apiKey : String
  /-- Deployment name passed as `model`. -/
  apiDeployment : String
  /-- Version passed as `api_version`. -/
  apiVersion : String
deriving DecidableEq, Repr

/-- Parameter extraction of `test_azure_openai_direct`
(`test_api_connectivity.py` lines 41-48): every field is read with a default,
`API_VERSION` defaulting to `2024-05-01`; the probe is aborted (`none`) when
the base, key or deployment is empty. -/
def azureDirectParams (hostAgent : List (String × String)) :
    Option AzureProbeParams :=
  let api_base := (hostAgent.lookup "API_BASE").getD ""
  let api_key := (hostAgent.lookup "API_KEY").getD ""
  let api_deployment := (hostAgent.lookup "API_DEPLOYMENT_ID").getD ""
  let api_version := (hostAgent.lookup "API_VERSION").getD "2024-05-01"
  if api_base = "" || api_key = "" || api_deployment = "" then none
  else some ⟨api_base, api_key, api_deployment, api_version⟩

/-- Parameter extraction of `check_azure_deployment`
(`darbot_validation.py` lines 236-239): `API_BASE` and `API_KEY` are indexed
directly (a missing key raises and the check fails, `none`), while
`API_VERSION` defaults to `2024-02-15-preview` and the deployment to the
empty string. -/
def darbotAzureParams (hostAgent : List (String × String)) :
    Option AzureProbeParams :=
  match hostAgent.lookup "API_BASE", hostAgent.lookup "API_KEY" with
  | some b, some k =>
    some ⟨b, k, (hostAgent.lookup "API_DEPLOYMENT_ID").getD "",
      (hostAgent.lookup "API_VERSION").getD "2024-02-15-preview"⟩
  | _, _ => none

/-- Parameter extraction of `check_api_connectivity`
(`fixed_comprehensive_validation.py` lines 319-322): base, key and deployment
are indexed directly (a missing one raises and the check fails, `none`),
`API_VERSION` defaults to `2024-02-15-preview`.  Env-var resolution of the
extracted values follows separately (`resolveEnvVar`). -/
def fixedAzureParams (hostAgent : List (String × String)) :
    Option AzureProbeParams :=
  match hostAgent.lookup "API_BASE", hostAgent.lookup "API_KEY",
      hostAgent.lookup "API_DEPLOYMENT_ID" with
  | some b, some k, some d =>
    some ⟨b, k, d, (hostAgent.lookup "API_VERSION").getD "2024-02-15-preview"⟩
  | _, _, _ => none

/-- Selector for the deployment-looks-like-a-model warning among `Finding`s. -/
def Finding.isDeployWarn : Finding → Bool
  | Finding.deploymentLooksLikeModel _ => true
  | _ => false

/-- Selector for the deployment-looks-like-a-model warning among
`CheckFinding`s. -/
def CheckFinding.isDeployWarn : CheckFinding → Bool
  | CheckFinding.deploymentLooksLikeModel _ => true
  | _ => false

/-!
## Claims
-/

/-- C1, counterexample: with `API_KEY` present but equal to the empty string
in an otherwise complete azure configuration, `validate_config` does not
emit `Missing API_KEY` (and does not fail), and the placeholder-or-invalid
key heuristic does fire — the opposite of the claimed behaviour. -/
theorem C1_counterexample :
    (UFO.validateConfigAgent [("API_TYPE", "azure"), ("API_KEY", ""),
      ("API_BASE", "https://contoso.openai.azure.com"),
      ("API_VERSION", "2024-02-15-preview"),
      ("API_DEPLOYMENT_ID", "contoso-gpt")] false).2 = true ∧
    Finding.missingField "API_KEY" ∉
      (UFO.validateConfigAgent [("API_TYPE", "azure"), ("API_KEY", ""),
      ("API_BASE", "https://contoso.openai.azure.com"),
      ("API_VERSION", "2024-02-15-preview"),
      ("API_DEPLOYMENT_ID", "contoso-gpt")] false).1 ∧
    Finding.apiKeyPlaceholderOrInvalid ∈
      (UFO.validateConfigAgent [("API_TYPE", "azure"), ("API_KEY", ""),
      ("API_BASE", "https://contoso.openai.azure.com"),
      ("API_VERSION", "2024-02-15-preview"),
      ("API_DEPLOYMENT_ID", "contoso-gpt")] false).1 := by
  decide

/-- C1 (amended): a present `API_KEY` — of any value, in particular the empty
string — never produces the `Missing API_KEY` failure of `validate_config`
(presence is key membership); for an azure configuration with all required
fields present and an empty `API_KEY`, validation returns True and the
placeholder-or-invalid key heuristic reports the key instead. -/
theorem C1_empty_key_passes_with_heuristic :
    (∀ (h : List (String × String)) (m : Bool) (k : String),
      h.lookup "API_KEY" = some k →
      Finding.missingField "API_KEY" ∉ (UFO.validateConfigAgent h m).1) ∧
    (∀ (b v d : String) (m : Bool),
      (UFO.validateConfigAgent [("API_TYPE", "azure"), ("API_KEY", ""), ("API_BASE", b),
        ("API_VERSION", v), ("API_DEPLOYMENT_ID", d)] m).2 = true ∧
      Finding.apiKeyPlaceholderOrInvalid ∈
        (UFO.validateConfigAgent [("API_TYPE", "azure"), ("API_KEY", ""), ("API_BASE", b),
          ("API_VERSION", v), ("API_DEPLOYMENT_ID", d)] m).1) := by
  constructor
  · intro h m k hk
    unfold UFO.validateConfigAgent
    cases e1 : h.lookup "API_TYPE" with
    | none => simp
    | some t =>
      simp only [e1, hk]
      repeat' split
      all_goals simp_all [UFO.tailFindings, UFO.envVarFindings]
      all_goals (cases m <;> simp_all)
  · intro b v d m
    constructor
    · rfl
    · simp [UFO.validateConfigAgent, List.lookup, UFO.tailFindings, UFO.envVarFindings,
        show UFO.strLower "azure" = "azure" from rfl]

/-- C1, witness for the amended theorem at concrete inputs. -/
theorem C1_witness :
    Finding.missingField "API_KEY" ∉
      (UFO.validateConfigAgent [("API_TYPE", "openai"), ("API_KEY", "")] false).1 ∧
    (UFO.validateConfigAgent [("API_TYPE", "azure"), ("API_KEY", ""),
      ("API_BASE", "https://contoso.openai.azure.com"), ("API_VERSION", "2024-06-01"),
      ("API_DEPLOYMENT_ID", "mydep")] true).2 = true :=
  ⟨C1_empty_key_passes_with_heuristic.1 _ false "" rfl,
    (C1_empty_key_passes_with_heuristic.2 "https://contoso.openai.azure.com"
      "2024-06-01" "mydep" true).1⟩

/-- C2, counterexample: `validate_config` accepts an `aoai` configuration
with none of `API_BASE`, `API_VERSION`, `API_DEPLOYMENT_ID` present (the
claim requires them for `aoai`), and `check_config_file` rejects an `openai`
configuration without `API_BASE` (the claim says `openai` needs nothing
beyond `API_TYPE` and `API_KEY`). -/
theorem C2_counterexample :
    (UFO.validateConfigAgent [("API_TYPE", "aoai"), ("API_KEY", "0123456789abc")]
      false).2 = true ∧
    (UFO.checkConfigFileAgent [("API_TYPE", "openai"), ("API_KEY", "0123456789abc")]).2
      = false := by
  decide

/-- C2 (amended): `validate_config` requires exactly `API_TYPE` and `API_KEY`
unconditionally and, only when the lower-cased `API_TYPE` equals `azure`,
additionally `API_BASE`, `API_VERSION` and `API_DEPLOYMENT_ID`; `aoai` and
every other provider value trigger no additional requirement.
`check_config_file` requires `API_TYPE`, `API_BASE` and `API_KEY`
unconditionally and, when the lower-cased `API_TYPE` is `azure` or `aoai`,
additionally only `API_DEPLOYMENT_ID`; no variant emits an
unsupported-provider warning in the structural check. -/
theorem C2_required_fields :
    (∀ (h : List (String × String)) (m : Bool),
      (UFO.validateConfigAgent h m).2 = true ↔
        ((h.lookup "API_TYPE").isSome ∧ (h.lookup "API_KEY").isSome ∧
          ∀ t, h.lookup "API_TYPE" = some t → UFO.strLower t = "azure" →
            (h.lookup "API_BASE").isSome ∧ (h.lookup "API_VERSION").isSome ∧
            (h.lookup "API_DEPLOYMENT_ID").isSome)) ∧
    (∀ h : List (String × String),
      (UFO.checkConfigFileAgent h).2 = true ↔
        ((h.lookup "API_TYPE").isSome ∧ (h.lookup "API_BASE").isSome ∧
          (h.lookup "API_KEY").isSome ∧
          ∀ t, h.lookup "API_TYPE" = some t →
            (UFO.strLower t = "azure" ∨ UFO.strLower t = "aoai") →
            (h.lookup "API_DEPLOYMENT_ID").isSome)) := by
  constructor
  · intro h m
    unfold UFO.validateConfigAgent
    cases e1 : h.lookup "API_TYPE" with
    | none => simp [e1]
    | some t =>
      cases e2 : h.lookup "API_KEY" with
      | none => simp [e1, e2]
      | some k =>
        dsimp only
        by_cases ht : UFO.strLower t = "azure"
        · rw [if_pos ht]
          cases e3 : h.lookup "API_BASE" with
          | none => simp [e1, e2, e3, ht]
          | some b =>
            cases e4 : h.lookup "API_VERSION" with
            | none => simp [e1, e2, e3, e4, ht]
            | some v =>
              cases e5 : h.lookup "API_DEPLOYMENT_ID" with
              | none => simp [e1, e2, e3, e4, e5, ht]
              | some d => simp [e1, e2, e3, e4, e5, ht]
        · rw [if_neg ht]
          simp [e1, e2, ht]
  · intro h
    unfold UFO.checkConfigFileAgent
    cases e1 : h.lookup "API_TYPE" with
    | none => simp [e1, List.filter]
    | some t =>
      cases e2 : h.lookup "API_BASE" with
      | none => simp [e1, e2, List.filter]
      | some b =>
        cases e3 : h.lookup "API_KEY" with
        | none => simp [e1, e2, e3, List.filter]
        | some k =>
          simp only [e1, e2, e3, List.filter]
          by_cases ht : UFO.strLower t = "azure" ∨ UFO.strLower t = "aoai"
          · have ht2 : (UFO.strLower t = "azure" || UFO.strLower t = "aoai") = true := by
              rcases ht with ht | ht <;> simp [ht]
            cases e5 : h.lookup "API_DEPLOYMENT_ID" with
            | none =>
              simp [e1, e2, e3, e5, ht2]
              tauto
            | some d => simp [e1, e2, e3, e5, ht2]
          · push_neg at ht
            have ht2 : (UFO.strLower t = "azure" || UFO.strLower t = "aoai") = false := by
              simp [ht.1, ht.2]
            simp [e1, e2, e3, ht2, ht.1, ht.2]

/-- C2, witness for the amended theorem: the `aoai` configuration without the
azure extras satisfies the right-hand side, so validation passes. -/
theorem C2_witness :
    (UFO.validateConfigAgent [("API_TYPE", "aoai"), ("API_KEY", "0123456789abc")]
      false).2 = true := by
  refine (C2_required_fields.1 [("API_TYPE", "aoai"), ("API_KEY", "0123456789abc")]
    false).mpr ⟨by decide, by decide, ?_⟩
  intro t het hz
  rw [show List.lookup "API_TYPE" [("API_TYPE", "aoai"), ("API_KEY", "0123456789abc")]
    = some "aoai" from rfl] at het
  cases het
  exact absurd hz (by decide)

/-- C3, counterexample: in `test_api_connectivity.py` the host agent is read
only through the nested `AGENT_SETTINGS` path, so for a document whose valid
`HOST_AGENT` mapping sits at top level the code yields the empty mapping
rather than the section the resolver of `fixed_comprehensive_validation.py`
returns. -/
theorem C3_counterexample :
    UFO.resolveAgentSection
      (Yaml.map [("HOST_AGENT", Yaml.map [("API_TYPE", Yaml.str "azure")])])
      "HOST_AGENT" = some (Yaml.map [("API_TYPE", Yaml.str "azure")]) ∧
    UFO.nestedOnlyHostAgent
      (Yaml.map [("HOST_AGENT", Yaml.map [("API_TYPE", Yaml.str "azure")])])
      = Yaml.map [] ∧
    Yaml.map [] ≠ Yaml.map [("API_TYPE", Yaml.str "azure")] := by
  refine ⟨rfl, rfl, by simp⟩

/-- C3 (amended): the resolver of `fixed_comprehensive_validation.py` tries
the top-level key first and the `AGENT_SETTINGS`-nested key second, returning
the first hit; the accessor of `test_api_connectivity.py` instead reads only
the nested path (returning whatever mapping sits there), so only the former
accepts both configuration shapes. -/
theorem C3_resolver_paths :
    (∀ (config : Yaml) (name : String) (v : Yaml),
      config.find name = some v → UFO.resolveAgentSection config name = some v) ∧
    (∀ (config : Yaml) (name : String),
      config.find name = none →
      UFO.resolveAgentSection config name =
        (config.find "AGENT_SETTINGS").bind (fun s => s.find name)) ∧
    (∀ (config s section_ : Yaml),
      config.find "AGENT_SETTINGS" = some s → s.find "HOST_AGENT" = some section_ →
      UFO.nestedOnlyHostAgent config = section_) := by
  refine ⟨?_, ?_, ?_⟩
  · intro config name v hv
    unfold UFO.resolveAgentSection
    rw [hv]
  · intro config name hn
    unfold UFO.resolveAgentSection
    rw [hn]
    cases e : config.find "AGENT_SETTINGS" <;> simp [e]
  · intro config s section_ h1 h2
    unfold UFO.nestedOnlyHostAgent
    rw [h1]
    dsimp only
    rw [h2]

/-- C3, witness for the amended theorem at concrete documents. -/
theorem C3_witness :
    UFO.resolveAgentSection (Yaml.map [("HOST_AGENT", Yaml.null)]) "HOST_AGENT"
      = some Yaml.null ∧
    UFO.nestedOnlyHostAgent
      (Yaml.map [("AGENT_SETTINGS", Yaml.map [("HOST_AGENT", Yaml.bool true)])])
      = Yaml.bool true :=
  ⟨C3_resolver_paths.1 _ "HOST_AGENT" _ rfl,
    C3_resolver_paths.2.2 _ (Yaml.map [("HOST_AGENT", Yaml.bool true)]) _ rfl rfl⟩

/-- C4, counterexample: the first classification rule of
`test_azure_openai_direct` matches `unavailable_model` against the raw text
case-sensitively, so the classifier is not a case-insensitive matcher: an
upper-cased error message falls through to `unclassified` while its
lower-cased variant is classified as a deployment mismatch. -/
theorem C4_counterexample :
    UFO.classifyError "Error: UNAVAILABLE_MODEL" = ErrorCategory.unclassified ∧
    UFO.classifyError "Error: unavailable_model" = ErrorCategory.deploymentMismatch := by
  decide

/-- C4 (amended): the classifier of `test_azure_openai_direct` is a pure
function of the raw error text with first-match-wins ordering; the deployment
rule matches the substring `unavailable_model` case-sensitively against the
raw text while the authentication rule matches case-insensitively; it maps
`"Error code: 404 - unavailable_model"` to a deployment mismatch and
`"401 Unauthorized: invalid api key"` to an authentication failure. -/
theorem C4_classifier_rules :
    UFO.classifyError "Error code: 404 - unavailable_model"
      = ErrorCategory.deploymentMismatch ∧
    UFO.classifyError "401 Unauthorized: invalid api key"
      = ErrorCategory.authFailure ∧
    (∀ s, UFO.strContains s "unavailable_model" = true →
      UFO.classifyError s = ErrorCategory.deploymentMismatch) ∧
    (∀ s, UFO.strContains s "unavailable_model" = false →
      (UFO.strContains (UFO.strLower s) "authentication failed" ||
        UFO.strContains (UFO.strLower s) "unauthorized") = true →
      UFO.classifyError s = ErrorCategory.authFailure) := by
  refine ⟨by decide, by decide, ?_, ?_⟩
  · intro s hs
    simp [UFO.classifyError, hs]
  · intro s hs1 hs2
    simp [UFO.classifyError, hs1, hs2]

/-- C4, witness for the amended theorem at concrete messages. -/
theorem C4_witness :
    UFO.classifyError "deployment unavailable_model here"
      = ErrorCategory.deploymentMismatch ∧
    UFO.classifyError "401 UNAUTHORIZED" = ErrorCategory.authFailure :=
  ⟨C4_classifier_rules.2.2.1 "deployment unavailable_model here" (by decide),
    C4_classifier_rules.2.2.2 "401 UNAUTHORIZED" (by decide) (by decide)⟩

/-- C5, counterexample: `check_config_file` fires the
deployment-looks-like-a-model warning on any deployment ID with the `gpt-`
prefix, so `gpt-custom` — which is not in the claimed fixed set — is warned
about. -/
theorem C5_counterexample :
    ((UFO.checkConfigFileAgent [("API_TYPE", "azure"),
      ("API_BASE", "https://contoso.openai.azure.com"),
      ("API_KEY", "0123456789abcdef"), ("API_DEPLOYMENT_ID", "gpt-custom")]).1.countP
      (fun f => f.isDeployWarn) = 1) ∧
    UFO.knownModelNames.contains "gpt-custom" = false ∧
    UFO.commonModelNames.contains "gpt-custom" = false := by
  decide

/-- C5 (amended): `fix_azure_openai_config` emits the
deployment-looks-like-a-model warning exactly when `API_DEPLOYMENT_ID` is in
the fixed set of known model names, while `check_config_file` emits it
exactly when the deployment ID starts with `gpt-`; with `gpt-4o` each emits
exactly one such warning, and with `my-custom-deploy` neither emits any. -/
theorem C5_deployment_warn :
    (∀ b k d : String,
      (UFO.fixAzureFindings b k d).countP (fun f => f.isDeployWarn)
        = if UFO.commonModelNames.contains d then 1 else 0) ∧
    (∀ b k d : String,
      ((UFO.checkConfigFileAgent [("API_TYPE", "azure"), ("API_BASE", b),
        ("API_KEY", k), ("API_DEPLOYMENT_ID", d)]).1.countP
        (fun f => f.isDeployWarn))
        = if UFO.strStarts d "gpt-" then 1 else 0) ∧
    ((UFO.fixAzureFindings "https://contoso.openai.azure.com" "0123456789abcdef"
      "gpt-4o").countP (fun f => f.isDeployWarn) = 1) ∧
    ((UFO.fixAzureFindings "https://contoso.openai.azure.com" "0123456789abcdef"
      "my-custom-deploy").countP (fun f => f.isDeployWarn) = 0) ∧
    ((UFO.checkConfigFileAgent [("API_TYPE", "azure"),
      ("API_BASE", "https://contoso.openai.azure.com"),
      ("API_KEY", "0123456789abcdef"), ("API_DEPLOYMENT_ID", "gpt-4o")]).1.countP
      (fun f => f.isDeployWarn) = 1) ∧
    ((UFO.checkConfigFileAgent [("API_TYPE", "azure"),
      ("API_BASE", "https://contoso.openai.azure.com"),
      ("API_KEY", "0123456789abcdef"), ("API_DEPLOYMENT_ID", "my-custom-deploy")]).1.countP
      (fun f => f.isDeployWarn) = 0) := by
  refine ⟨?_, ?_, by decide, by decide, by decide, by decide⟩
  · intro b k d
    unfold UFO.fixAzureFindings
    repeat' split
    all_goals simp_all [Finding.isDeployWarn]
  · intro b k d
    simp only [UFO.checkConfigFileAgent, List.lookup, List.filter,
      show UFO.strLower "azure" = "azure" from rfl]
    repeat' split
    all_goals simp_all [CheckFinding.isDeployWarn,
      show UFO.strLower "azure" = "azure" from rfl]

/-- C5, witness for the amended theorem at a concrete deployment ID. -/
theorem C5_witness :
    (UFO.fixAzureFindings "https://e" "k" "gpt-35-turbo").countP
      (fun f => f.isDeployWarn) = 1 := by
  have h := C5_deployment_warn.1 "https://e" "k" "gpt-35-turbo"
  simpa using h

/-- C6, counterexample: with the environment binding `FOO=${A}` (and `A=x`),
resolving `"${FOO}"` yields `"${A}"`, but resolving that result again yields
`"x"`, so resolving the already-resolved value is not a no-op. -/
theorem C6_counterexample :
    UFO.resolveEnvVar [("FOO", "${A}"), ("A", "x")] "${FOO}" = "${A}" ∧
    UFO.resolveEnvVar [("FOO", "${A}"), ("A", "x")]
      (UFO.resolveEnvVar [("FOO", "${A}"), ("A", "x")] "${FOO}") = "x" ∧
    ("x" : String) ≠ "${A}" := by
  decide

/-- C6 (amended): resolving `"${FOO}"` yields the bound value; resolving the
result again is a no-op provided the bound value is not itself of the brace
form `${...}`; and any string not of the brace form passes through
unchanged. -/
theorem C6_conditional_idempotence (env : List (String × String)) (v : String)
    (hv : env.lookup "FOO" = some v)
    (hlit : (UFO.strStarts v "$\x7b" && UFO.strEnds v "\x7d") = false) :
    UFO.resolveEnvVar env "${FOO}" = v ∧
    UFO.resolveEnvVar env v = v ∧
    ∀ s : String, (UFO.strStarts s "$\x7b" && UFO.strEnds s "\x7d") = false →
      UFO.resolveEnvVar env s = s := by
  refine ⟨?_, ?_, ?_⟩
  · unfold UFO.resolveEnvVar
    rw [if_pos (by decide :
      (UFO.strStarts "${FOO}" "$\x7b" && UFO.strEnds "${FOO}" "\x7d") = true)]
    rw [show UFO.stripBraceForm "${FOO}" = "FOO" from by decide, hv]
    rfl
  · simp [UFO.resolveEnvVar, hlit]
  · intro s hs
    simp [UFO.resolveEnvVar, hs]

/-- C6, witness for the amended theorem with the concrete binding `FOO=bar`. -/
theorem C6_witness :
    UFO.resolveEnvVar [("FOO", "bar")] "${FOO}" = "bar" ∧
    UFO.resolveEnvVar [("FOO", "bar")] "bar" = "bar" :=
  ⟨(C6_conditional_idempotence [("FOO", "bar")] "bar" rfl (by decide)).1,
    (C6_conditional_idempotence [("FOO", "bar")] "bar" rfl (by decide)).2.1⟩

/-- C7: the loader reports a distinct not-found outcome for a missing path;
a document parsed to `null` (the PyYAML result for an empty file or the
content `null`) and an empty mapping are both reported as a parse error whose
message contains "empty or invalid", never as a successful empty mapping. -/
theorem C7_loader_outcomes :
    UFO.loadConfigFile none = LoadOutcome.configNotFound ∧
    UFO.loadConfigFile (some Yaml.null)
      = LoadOutcome.configParseError "Config file is empty or invalid" ∧
    UFO.loadConfigFile (some (Yaml.map []))
      = LoadOutcome.configParseError "Config file is empty or invalid" ∧
    UFO.strContains "Config file is empty or invalid" "empty or invalid" = true ∧
    UFO.loadConfigFile none ≠ UFO.loadConfigFile (some Yaml.null) := by
  refine ⟨rfl, rfl, rfl, by decide, ?_⟩
  intro hcontra
  exact LoadOutcome.noConfusion hcontra

/-- C8, counterexample: at 3 of 5 checks passed (60 percent),
`comprehensive_test.py` prints the usable-with-issues verdict and exits 0,
but `test_mission.py` exits 1 — so across the cited reporters the exit
status is not 0 exactly when the verdict tier is ready or usable. -/
theorem C8_counterexample :
    UFO.comprehensiveTestVerdict 3 5 = Verdict.usableWithIssues ∧
    UFO.comprehensiveTestExit 3 5 = 0 ∧
    UFO.testMissionExit 3 5 = 1 := by
  have h1 : ¬ (UFO.successRate 3 5 ≥ 80) := by rw [UFO.successRate]; norm_num
  have h2 : UFO.successRate 3 5 ≥ 60 := by rw [UFO.successRate]; norm_num
  have h3 : (3 : ℕ) ≠ 5 := by norm_num
  have h4 : ¬ (((3 : ℕ) : ℚ) ≥ ((5 : ℕ) : ℚ) * (4 / 5)) := by push_cast; norm_num
  refine ⟨?_, ?_, ?_⟩
  · rw [UFO.comprehensiveTestVerdict, if_neg h1, if_pos h2]
  · rw [UFO.comprehensiveTestExit, UFO.comprehensiveTestSuccess, if_neg h1, if_pos h2]
    decide
  · rw [UFO.testMissionExit, if_neg h3, if_neg h4]

/-- C8 (amended): `comprehensive_test.py` maps the exact percentage to its
verdict by the claimed thresholds (at least 80 percent ready, at least 60
percent usable with issues, lower not ready) and exits 0 exactly when the
verdict is not the not-ready tier; `test_mission.py` has no 60-percent tier
and exits 0 exactly when at least 80 percent of its tests passed. -/
theorem C8_thresholds (p t : ℕ) (ht : 0 < t) :
    (UFO.comprehensiveTestVerdict p t = Verdict.ready ↔ 4 * t ≤ 5 * p) ∧
    (UFO.comprehensiveTestVerdict p t = Verdict.usableWithIssues ↔
      (¬ 4 * t ≤ 5 * p ∧ 3 * t ≤ 5 * p)) ∧
    (UFO.comprehensiveTestExit p t = 0 ↔
      UFO.comprehensiveTestVerdict p t ≠ Verdict.notReady) ∧
    (UFO.testMissionExit p t = 0 ↔ 4 * t ≤ 5 * p) := by
  have ht2 : (0 : ℚ) < (t : ℚ) := by exact_mod_cast ht
  have k80 : UFO.successRate p t ≥ 80 ↔ 4 * t ≤ 5 * p := by
    rw [UFO.successRate, ge_iff_le, div_mul_eq_mul_div, le_div_iff₀ ht2,
      show ((80 : ℚ) * t) = (((80 * t : ℕ)) : ℚ) by push_cast; ring,
      show ((p : ℚ) * 100) = (((100 * p : ℕ)) : ℚ) by push_cast; ring, Nat.cast_le]
    omega
  have k60 : UFO.successRate p t ≥ 60 ↔ 3 * t ≤ 5 * p := by
    rw [UFO.successRate, ge_iff_le, div_mul_eq_mul_div, le_div_iff₀ ht2,
      show ((60 : ℚ) * t) = (((60 * t : ℕ)) : ℚ) by push_cast; ring,
      show ((p : ℚ) * 100) = (((100 * p : ℕ)) : ℚ) by push_cast; ring, Nat.cast_le]
    omega
  have km : ((p : ℚ) ≥ (t : ℚ) * (4 / 5)) ↔ 4 * t ≤ 5 * p := by
    rw [ge_iff_le, show ((t : ℚ) * (4 / 5)) = ((4 * t : ℕ) : ℚ) / 5 by push_cast; ring,
      div_le_iff₀ (by norm_num : (0 : ℚ) < 5),
      show ((p : ℚ) * 5) = ((5 * p : ℕ) : ℚ) by push_cast; ring, Nat.cast_le]
  have hm : UFO.testMissionExit p t = 0 ↔ 4 * t ≤ 5 * p := by
    rw [UFO.testMissionExit]
    by_cases hpt : p = t
    · subst hpt
      simp
      omega
    · rw [if_neg hpt]
      by_cases hge : ((p : ℚ) ≥ (t : ℚ) * (4 / 5))
      · rw [if_pos hge]
        simpa using km.mp hge
      · rw [if_neg hge]
        constructor
        · intro h0
          exact absurd h0 (by omega)
        · intro hle
          exact absurd (km.mpr hle) hge
  by_cases h80 : UFO.successRate p t ≥ 80
  · have f1 := k80.mp h80
    refine ⟨?_, ?_, ?_, hm⟩
    · simp [UFO.comprehensiveTestVerdict, if_pos h80, f1]
    · simp [UFO.comprehensiveTestVerdict, if_pos h80]
      omega
    · simp [UFO.comprehensiveTestExit, UFO.comprehensiveTestSuccess,
        UFO.comprehensiveTestVerdict, if_pos h80]
  · by_cases h60 : UFO.successRate p t ≥ 60
    · have f1 : ¬ 4 * t ≤ 5 * p := fun hc => h80 (k80.mpr hc)
      have f2 := k60.mp h60
      refine ⟨?_, ?_, ?_, hm⟩
      · simp [UFO.comprehensiveTestVerdict, if_neg h80, if_pos h60]
        omega
      · simp [UFO.comprehensiveTestVerdict, if_neg h80, if_pos h60]
        omega
      · simp [UFO.comprehensiveTestExit, UFO.comprehensiveTestSuccess,
          UFO.comprehensiveTestVerdict, if_neg h80, if_pos h60]
    · have f1 : ¬ 4 * t ≤ 5 * p := fun hc => h80 (k80.mpr hc)
      have f2 : ¬ 3 * t ≤ 5 * p := fun hc => h60 (k60.mpr hc)
      refine ⟨?_, ?_, ?_, hm⟩
      · simp [UFO.comprehensiveTestVerdict, if_neg h80, if_neg h60]
        omega
      · simp [UFO.comprehensiveTestVerdict, if_neg h80, if_neg h60]
        omega
      · simp [UFO.comprehensiveTestExit, UFO.comprehensiveTestSuccess,
          UFO.comprehensiveTestVerdict, if_neg h80, if_neg h60]

/-- C8, witness for the amended theorem at 4 of 5 checks passed. -/
theorem C8_witness :
    (UFO.comprehensiveTestVerdict 4 5 = Verdict.ready ↔ 4 * 5 ≤ 5 * 4) ∧
    (UFO.comprehensiveTestVerdict 4 5 = Verdict.usableWithIssues ↔
      (¬ 4 * 5 ≤ 5 * 4 ∧ 3 * 5 ≤ 5 * 4)) ∧
    (UFO.comprehensiveTestExit 4 5 = 0 ↔
      UFO.comprehensiveTestVerdict 4 5 ≠ Verdict.notReady) ∧
    (UFO.testMissionExit 4 5 = 0 ↔ 4 * 5 ≤ 5 * 4) :=
  C8_thresholds 4 5 (by norm_num)

/-- C9: whenever the fix flow overwrites the config file, the backup write of
the complete original content occurs strictly earlier in the write trace;
with changes made, the final state holds the updated content with the
original preserved in the backup; with no changes made, nothing is written
and the files are untouched. -/
theorem C9_backup_precedes_overwrite (changes : Bool) (updated : String)
    (fs : ConfigFS) :
    (∀ (i : ℕ) (c : String),
      ((UFO.saveUpdatedConfig changes updated fs).2).get? i
        = some (WriteEvent.configWrite c) →
      ∃ j, j < i ∧ ((UFO.saveUpdatedConfig changes updated fs).2).get? j
        = some (WriteEvent.backupWrite fs.configContent)) ∧
    (changes = true → (UFO.saveUpdatedConfig changes updated fs).1
      = ⟨updated, some fs.configContent⟩) ∧
    (changes = false → UFO.saveUpdatedConfig changes updated fs = (fs, [])) := by
  cases changes
  · refine ⟨?_, fun hc => absurd hc (by simp), fun _ => rfl⟩
    intro i c hc
    simp [UFO.saveUpdatedConfig] at hc
  · refine ⟨?_, fun _ => rfl, fun hc => absurd hc (by simp)⟩
    intro i c hc
    match i with
    | 0 => simp [UFO.saveUpdatedConfig] at hc
    | 1 => exact ⟨0, by omega, rfl⟩
    | (n + 2) => simp [UFO.saveUpdatedConfig] at hc

/-- C9, witness for the save-flow theorem at concrete file contents. -/
theorem C9_witness :
    (UFO.saveUpdatedConfig true "new: y" ⟨"old: y", none⟩).1
      = ⟨"new: y", some "old: y"⟩ ∧
    UFO.saveUpdatedConfig false "new: y" ⟨"old: y", none⟩ = (⟨"old: y", none⟩, []) :=
  ⟨(C9_backup_precedes_overwrite true "new: y" ⟨"old: y", none⟩).2.1 rfl,
    (C9_backup_precedes_overwrite false "new: y" ⟨"old: y", none⟩).2.2 rfl⟩

/-- C10: in each connectivity check, a configuration without `API_VERSION`
does not fail for that reason — the probe parameters are still produced, with
the built-in default substituted: `2024-05-01` in
`test_api_connectivity.py` and `2024-02-15-preview` in
`darbot_validation.py` and `fixed_comprehensive_validation.py`. -/
theorem C10_api_version_default (h : List (String × String))
    (hv : h.lookup "API_VERSION" = none) :
    (∀ p, UFO.azureDirectParams h = some p → p.apiVersion = "2024-05-01") ∧
    (∀ p, UFO.darbotAzureParams h = some p → p.apiVersion = "2024-02-15-preview") ∧
    (∀ p, UFO.fixedAzureParams h = some p → p.apiVersion = "2024-02-15-preview") ∧
    (∀ b k d, h.lookup "API_BASE" = some b → h.lookup "API_KEY" = some k →
      h.lookup "API_DEPLOYMENT_ID" = some d → b ≠ "" → k ≠ "" → d ≠ "" →
      ((UFO.azureDirectParams h).isSome ∧ (UFO.darbotAzureParams h).isSome ∧
        (UFO.fixedAzureParams h).isSome)) := by
  refine ⟨?_, ?_, ?_, ?_⟩
  · intro p hp
    unfold UFO.azureDirectParams at hp
    rw [hv] at hp
    dsimp only at hp
    split at hp
    · exact absurd hp (by simp)
    · cases hp
      rfl
  · intro p hp
    unfold UFO.darbotAzureParams at hp
    rw [hv] at hp
    split at hp
    · cases hp
      rfl
    · exact absurd hp (by simp)
  · intro p hp
    unfold UFO.fixedAzureParams at hp
    rw [hv] at hp
    split at hp
    · cases hp
      rfl
    · exact absurd hp (by simp)
  · intro b k d hb hk hd hbne hkne hdne
    unfold UFO.azureDirectParams UFO.darbotAzureParams UFO.fixedAzureParams
    rw [hv, hb, hk, hd]
    simp [hbne, hkne, hdne]

/-- C10, witness at a concrete azure configuration without `API_VERSION`. -/
theorem C10_witness :
    (UFO.azureDirectParams [("API_TYPE", "azure"),
      ("API_BASE", "https://contoso.openai.azure.com"),
      ("API_KEY", "0123456789abcdef"), ("API_DEPLOYMENT_ID", "contoso-gpt")]).isSome ∧
    (UFO.darbotAzureParams [("API_TYPE", "azure"),
      ("API_BASE", "https://contoso.openai.azure.com"),
      ("API_KEY", "0123456789abcdef"), ("API_DEPLOYMENT_ID", "contoso-gpt")]).isSome ∧
    (UFO.fixedAzureParams [("API_TYPE", "azure"),
      ("API_BASE", "https://contoso.openai.azure.com"),
      ("API_KEY", "0123456789abcdef"), ("API_DEPLOYMENT_ID", "contoso-gpt")]).isSome :=
  (C10_api_version_default [("API_TYPE", "azure"),
      ("API_BASE", "https://contoso.openai.azure.com"),
      ("API_KEY", "0123456789abcdef"), ("API_DEPLOYMENT_ID", "contoso-gpt")]
    rfl).2.2.2 "https://contoso.openai.azure.com" "0123456789abcdef" "contoso-gpt"
    rfl rfl rfl (by decide) (by decide) (by decide)

end UFO
